import Mathlib

/-!
Verification of the packaging script `setup.py` of the Attack_SplitNN
repository.  The only behaviourally relevant code is the function
`read_requirements`, which opens `./requirements.txt`, iterates over its
lines and applies Python's `str.rstrip()` (no arguments) to each line,
returning the resulting list.  The rest of the script builds a static
metadata record for the packaging tool, with an empty `console_scripts`
entry-point list.

File contents are modelled as `List Char`.  Python opens the file in text
mode, so universal-newline translation turns `\r\n` and `\r` into `\n`
before the line iterator splits the stream; lines keep their trailing
`\n`, and a final unterminated chunk is yielded without one.
-/

/-- The set of characters stripped by Python's `str.rstrip()` with no
arguments: every character for which `str.isspace()` holds. -/
def pyIsSpace (c : Char) : Bool :=
  c.toNat ∈ [0x09, 0x0a, 0x0b, 0x0c, 0x0d, 0x1c, 0x1d, 0x1e, 0x1f, 0x20,
             0x85, 0xa0, 0x1680,
             0x2000, 0x2001, 0x2002, 0x2003, 0x2004, 0x2005, 0x2006,
             0x2007, 0x2008, 0x2009, 0x200a, 0x2028, 0x2029, 0x202f,
             0x205f, 0x3000]

/-- Universal-newline translation performed by Python text-mode reading:
`\r\n` and a lone `\r` both become `\n`. -/
def translateNewlines : List Char → List Char
  | [] => []
  | '\r' :: '\n' :: rest => '\n' :: translateNewlines rest
  | '\r' :: rest => '\n' :: translateNewlines rest
  | c :: rest => c :: translateNewlines rest

/-- Accumulator-based splitting of a translated character stream into
lines, each keeping its trailing `\n`; a final chunk without a
terminator is yielded as-is, and an empty tail yields nothing. -/
def splitLinesAux (acc : List Char) : List Char → List (List Char)
  | [] => if acc.isEmpty then [] else [acc.reverse]
  | '\n' :: rest => (acc.reverse ++ ['\n']) :: splitLinesAux [] rest
  | c :: rest => splitLinesAux (c :: acc) rest

/-- The sequence of lines Python's `for line in f` yields for a text-mode
file whose raw content is `content`. -/
def fileLines (content : List Char) : List (List Char) :=
  splitLinesAux [] (translateNewlines content)

/-- Python's `line.rstrip()`: remove every trailing character satisfying
`str.isspace()`. -/
def pyRstrip (s : List Char) : List Char :=
  (s.reverse.dropWhile pyIsSpace).reverse

/-- The list comprehension `[line.rstrip() for line in f]` from
`read_requirements` in `setup.py`, as a function of the file content. -/
def read_requirements (content : List Char) : List (List Char) :=
  (fileLines content).map pyRstrip

/-- The path `os.path.join('.', 'requirements.txt')` built in
`read_requirements`. -/
def reqs_path : String := "./requirements.txt"

/-- A filesystem model: an association list from paths to file contents. -/
def lookupFile (fs : List (String × List Char)) (p : String) :
    Option (List Char) :=
  (fs.find? (fun e => e.1 = p)).map (fun e => e.2)

/-- The error kinds relevant to `read_requirements`: `open` raising a
file-access error, or an OS read error while iterating lines. -/
inductive IOErr where
  | fileNotFound : String → IOErr
  | readFault : Nat → IOErr
  deriving DecidableEq, Repr

/-- `read_requirements` over the filesystem model: `open(reqs_path, 'r')`
raises (propagated untranslated) when the path is absent, and otherwise
the body returns the rstripped lines. -/
def read_requirementsFS (fs : List (String × List Char)) :
    Except IOErr (List (List Char)) :=
  match lookupFile fs reqs_path with
  | none => Except.error (IOErr.fileNotFound reqs_path)
  | some content => Except.ok (read_requirements content)

/-- The loop body of `read_requirements` under a fault oracle: reading
may raise an OS error before line `k` is consumed; otherwise the
comprehension completes normally. -/
def listBody (fault : Option Nat) (ls : List (List Char)) :
    Except IOErr (List (List Char)) :=
  match fault with
  | none => Except.ok (ls.map pyRstrip)
  | some k =>
    if k < ls.length then Except.error (IOErr.readFault k)
    else Except.ok (ls.map pyRstrip)

/-- Semantics of `with open(...) as f: ...`: run the body on the handle;
whether the body returns normally or raises, `__exit__` closes the
handle (the `Bool` component records that the handle was released)
before the result or exception propagates. -/
def withOpen (content : List Char)
    (body : List Char → Except IOErr α) : Except IOErr α × Bool :=
  match body content with
  | Except.ok a => (Except.ok a, true)
  | Except.error e => (Except.error e, true)

/-- `read_requirements` with the handle lifecycle made explicit and a
fault oracle for the read loop.  In the `open`-failure branch no handle
was ever acquired, so none is left unreleased. -/
def read_requirementsTraced (fs : List (String × List Char))
    (fault : Option Nat) : Except IOErr (List (List Char)) × Bool :=
  match lookupFile fs reqs_path with
  | none => (Except.error (IOErr.fileNotFound reqs_path), true)
  | some content => withOpen content (fun c => listBody fault (fileLines c))

/-- The module-level bindings of `setup.py` that a call could mutate. -/
structure Globals where
  console_scripts : List String
  deriving DecidableEq, Repr

/-- `read_requirements` with the module-level state threaded through:
its body binds only locals (`reqs_path`, `f`, `requirements`) and
assigns no module-level name, so the state passes through unchanged. -/
def read_requirementsGlobals (g : Globals) (fs : List (String × List Char)) :
    Except IOErr (List (List Char)) × Globals :=
  (read_requirementsFS fs, g)

/-- The module-level `console_scripts = []` from `setup.py`. -/
def console_scripts : List String := []

/-- The keyword arguments of the `setup(...)` call: the metadata record
handed to the packaging tool. -/
structure SetupMetadata where
  name : String
  version : String
  description : String
  author : String
  author_email : String
  license : String
  install_requires : List (List Char)
  url : String
  package_dir : List (String × String)
  packages : List String
  entry_points : List (String × List String)
  deriving Repr

/-- The `setup(...)` call of `setup.py`, parameterised by the computed
requirement list and by the opaque result of `find_packages`. -/
def setupCall (reqs : List (List Char)) (pkgs : List String) : SetupMetadata :=
  { name := "attacksplitnn"
    version := "0.0.0"
    description := "Attacking SplitNN"
    author := "Koukyosyumei"
    author_email := "koukyosyumei@hotmail.com"
    license := "MIT"
    install_requires := reqs
    url := "https://github.com/Koukyosyumei/Attack_SplitNN"
    package_dir := [("", "src")]
    packages := pkgs
    entry_points := [("console_scripts", console_scripts)] }

/-- Modelled from the spec: "for each line, remove only the trailing line
terminator" — strip one trailing `\n` (the post-translation terminator)
and nothing else.  Stated from the spec's words for comparison with the
source's `pyRstrip`. -/
def stripTerminator (line : List Char) : List Char :=
  if line.getLast? = some '\n' then line.dropLast else line

/-- Modelled from the spec: "removing trailing whitespace/newline
characters from each line" — an independent front-first recursion that
removes every trailing whitespace character, for comparison with the
source's reverse-and-drop `pyRstrip`. -/
def specRstrip : List Char → List Char
  | [] => []
  | c :: rest =>
    let r := specRstrip rest
    if r = [] then (if pyIsSpace c then [] else [c]) else c :: r

lemma getD_map_rstrip (l : List (List Char)) (i : Nat) :
    (l.map pyRstrip).getD i [] = pyRstrip (l.getD i []) := by
  rw [List.getD_eq_getElem?_getD, List.getD_eq_getElem?_getD, List.getElem?_map]
  cases l[i]? <;> rfl

lemma pyRstrip_cons (c : Char) (rest : List Char) :
    pyRstrip (c :: rest) =
      if pyRstrip rest = [] then (if pyIsSpace c then [] else [c])
      else c :: pyRstrip rest := by
  show ((c :: rest).reverse.dropWhile pyIsSpace).reverse = _
  rw [List.reverse_cons, List.dropWhile_append]
  cases h : (rest.reverse.dropWhile pyIsSpace).isEmpty with
  | true =>
    have h0 : rest.reverse.dropWhile pyIsSpace = [] := by
      simpa [List.isEmpty_iff] using h
    have h1 : pyRstrip rest = [] := by simp [pyRstrip, h0]
    rw [if_pos rfl, h1, if_pos rfl]
    cases hc : pyIsSpace c <;> simp [List.dropWhile_cons, hc]
  | false =>
    have h0 : rest.reverse.dropWhile pyIsSpace ≠ [] := by
      simpa [List.isEmpty_iff] using h
    have h1 : pyRstrip rest ≠ [] := by simp [pyRstrip, h0]
    rw [if_neg (by simp), if_neg h1, List.reverse_append]
    rfl

lemma pyRstrip_eq_specRstrip : ∀ s : List Char, pyRstrip s = specRstrip s
  | [] => rfl
  | c :: rest => by
    rw [pyRstrip_cons, pyRstrip_eq_specRstrip rest]
    simp [specRstrip]

lemma pyRstrip_eq_nil_of_all {s : List Char}
    (h : ∀ c ∈ s, pyIsSpace c = true) : pyRstrip s = [] := by
  have h0 : s.reverse.dropWhile pyIsSpace = [] :=
    List.dropWhile_eq_nil_iff.mpr (fun x hx => h x (List.mem_reverse.mp hx))
  simp [pyRstrip, h0]

lemma pyRstrip_getLast_not_space {s : List Char} {c : Char}
    (h : (pyRstrip s).getLast? = some c) : pyIsSpace c = false := by
  unfold pyRstrip at h
  rw [List.getLast?_reverse] at h
  have h2 := List.head?_dropWhile_not pyIsSpace s.reverse
  rw [h] at h2
  exact h2

/-- C1 counterexample: for the file content `"a \n"`, `read_requirements`
does not return the line with only the trailing terminator removed — the
trailing space is stripped too.  The code returns `["a"]`, the claim
demands `["a "]`. -/
theorem C1_claim_false : read_requirements ("a \n".toList) ≠
    (fileLines ("a \n".toList)).map stripTerminator := by decide

/-- C1 amended: for every line of the input file, the string that
`read_requirements` returns for that line equals the line with ALL
trailing whitespace removed (spaces, tabs and the line terminator alike),
stated against the independent spec-side formulation `specRstrip`. -/
theorem C1_returns_line_rstripped (content : List Char) (i : Nat) :
    (read_requirements content).getD i [] =
      specRstrip ((fileLines content).getD i []) := by
  show ((fileLines content).map pyRstrip).getD i [] = _
  rw [getD_map_rstrip, pyRstrip_eq_specRstrip]

/-- C2 counterexample: for a file whose single line is entirely
whitespace (`"  \n"`), `read_requirements` returns the empty string, not
the leading whitespace preserved. -/
theorem C2_claim_false : read_requirements ("  \n".toList) = [[]] ∧
    read_requirements ("  \n".toList) ≠ ["  ".toList] := by
  constructor <;> decide

/-- C2 amended: for every line consisting entirely of whitespace
(terminator included), the corresponding element of `read_requirements`
is the empty string — `rstrip()` removes the whole line, it does not
preserve leading whitespace of an all-whitespace line. -/
theorem C2_whitespace_line_becomes_empty (content : List Char) (i : Nat)
    (h : ∀ c ∈ (fileLines content).getD i [], pyIsSpace c = true) :
    (read_requirements content).getD i [] = [] := by
  show ((fileLines content).map pyRstrip).getD i [] = _
  rw [getD_map_rstrip]
  exact pyRstrip_eq_nil_of_all h

/-- C2 witness: the file `"  \n"` has an all-whitespace line 0 and the
returned element is the empty string. -/
theorem C2_whitespace_line_becomes_empty_w :
    (∀ c ∈ (fileLines ("  \n".toList)).getD 0 [], pyIsSpace c = true) ∧
    (read_requirements ("  \n".toList)).getD 0 [] = [] :=
  ⟨by decide, C2_whitespace_line_becomes_empty ("  \n".toList) 0 (by decide)⟩

/-- C3: for a file with N lines, `read_requirements` returns exactly N
strings, the element at each position is the rstripped line at that
position (order preserved), and a blank line (bare terminator) becomes
the empty string. -/
theorem C3_one_string_per_line (content : List Char) (i : Nat) :
    (read_requirements content).length = (fileLines content).length ∧
    (read_requirements content).getD i [] =
      pyRstrip ((fileLines content).getD i []) ∧
    ((fileLines content).getD i [] = ['\n'] →
      (read_requirements content).getD i [] = []) := by
  refine ⟨List.length_map _ _, getD_map_rstrip _ _, fun h => ?_⟩
  rw [show (read_requirements content).getD i [] =
        pyRstrip ((fileLines content).getD i []) from getD_map_rstrip _ _, h]
  decide

/-- C3 witness: the file `"x\n\ny\n"` has three lines, line 1 is blank
and its returned element is the empty string. -/
theorem C3_one_string_per_line_w :
    (fileLines ("x\n\ny\n".toList)).getD 1 [] = ['\n'] ∧
    (read_requirements ("x\n\ny\n".toList)).length =
      (fileLines ("x\n\ny\n".toList)).length ∧
    (read_requirements ("x\n\ny\n".toList)).getD 1 [] = [] :=
  ⟨by decide, (C3_one_string_per_line ("x\n\ny\n".toList) 1).1,
    (C3_one_string_per_line ("x\n\ny\n".toList) 1).2.2 (by decide)⟩

/-- C4: when no file exists at `./requirements.txt`, `read_requirements`
propagates the file-access error raised by `open`, and in particular
never returns a (possibly empty or partial) list. -/
theorem C4_missing_file_error_propagates (fs : List (String × List Char))
    (h : lookupFile fs reqs_path = none) :
    read_requirementsFS fs = Except.error (IOErr.fileNotFound reqs_path) ∧
    ∀ l, read_requirementsFS fs ≠ Except.ok l := by
  have h1 : read_requirementsFS fs =
      Except.error (IOErr.fileNotFound reqs_path) := by
    unfold read_requirementsFS
    rw [h]
  exact ⟨h1, fun l hl => by rw [h1] at hl; exact Except.noConfusion hl⟩

/-- C4 witness: on the empty filesystem the path misses and the error is
returned. -/
theorem C4_missing_file_error_propagates_w :
    lookupFile [] reqs_path = none ∧
    read_requirementsFS [] = Except.error (IOErr.fileNotFound reqs_path) :=
  ⟨rfl, (C4_missing_file_error_propagates [] rfl).1⟩

/-- C5: on the concrete file content
`"numpy==1.21.0\ntorch>=1.9\n\nscikit-learn\n"`, `read_requirements`
returns exactly `["numpy==1.21.0", "torch>=1.9", "", "scikit-learn"]`. -/
theorem C5_concrete_scenario :
    read_requirements ("numpy==1.21.0\ntorch>=1.9\n\nscikit-learn\n".toList) =
      ["numpy==1.21.0".toList, "torch>=1.9".toList, [],
       "scikit-learn".toList] := by decide

/-- C6: on an empty (zero-byte) file, `read_requirements` returns the
empty sequence, both as a pure function of the content and through the
filesystem model. -/
theorem C6_empty_file :
    read_requirements [] = [] ∧
    read_requirementsFS [(reqs_path, [])] = Except.ok [] :=
  ⟨rfl, rfl⟩

lemma withOpen_snd (content : List Char)
    (body : List Char → Except IOErr α) :
    (withOpen content body).2 = true := by
  unfold withOpen
  cases body content <;> rfl

/-- C7: whenever the dependency file opens, the handle is released on
every exit path of `read_requirements` — both when the read loop
completes normally and when it raises partway through (any fault
oracle). -/
theorem C7_handle_always_released (fs : List (String × List Char))
    (fault : Option Nat) (content : List Char)
    (h : lookupFile fs reqs_path = some content) :
    (read_requirementsTraced fs fault).2 = true := by
  unfold read_requirementsTraced
  rw [h]
  exact withOpen_snd content _

/-- C7 witness: with the file present and a fault injected at line 0 the
run ends in a read error, yet the handle is still released. -/
theorem C7_handle_always_released_w :
    lookupFile [(reqs_path, ['a', '\n'])] reqs_path = some ['a', '\n'] ∧
    (read_requirementsTraced [(reqs_path, ['a', '\n'])] (some 0)).1 =
      Except.error (IOErr.readFault 0) ∧
    (read_requirementsTraced [(reqs_path, ['a', '\n'])] (some 0)).2 = true :=
  ⟨by decide, rfl,
    C7_handle_always_released [(reqs_path, ['a', '\n'])] (some 0)
      ['a', '\n'] (by decide)⟩

/-- C8: `read_requirements` mutates no global or module-level state: the
threaded module state comes back unchanged on every execution. -/
theorem C8_no_global_mutation (g : Globals) (fs : List (String × List Char)) :
    (read_requirementsGlobals g fs).2 = g := rfl

/-- C9: the metadata record handed to the packaging tool maps
`console_scripts` to the empty entry-point list, whatever the computed
requirements and discovered packages are: no CLI command is exposed. -/
theorem C9_console_scripts_empty (reqs : List (List Char))
    (pkgs : List String) :
    (setupCall reqs pkgs).entry_points = [("console_scripts", [])] ∧
    console_scripts = [] :=
  ⟨rfl, rfl⟩

/-- C10: every string returned by `read_requirements` is empty or ends
in a non-whitespace character: no trailing space, tab or carriage
return survives in any element. -/
theorem C10_no_trailing_whitespace (content : List Char) (i : Nat)
    (c : Char)
    (h : ((read_requirements content).getD i []).getLast? = some c) :
    pyIsSpace c = false := by
  rw [show read_requirements content = (fileLines content).map pyRstrip
        from rfl, getD_map_rstrip] at h
  exact pyRstrip_getLast_not_space h

/-- C10 witness: for the file `"a \n"` the single returned element ends
in the letter `a`, which is not whitespace. -/
theorem C10_no_trailing_whitespace_w :
    ((read_requirements ("a \n".toList)).getD 0 []).getLast? = some 'a' ∧
    pyIsSpace 'a' = false :=
  ⟨by decide, C10_no_trailing_whitespace ("a \n".toList) 0 'a' (by decide)⟩
